import Mathlib

set_option maxRecDepth 100000

/-!
Verification development for the solana-agent-mesh repository.

The repository is a TypeScript demo consisting of an Express API server
(`src/app/src/index.ts`) keeping agents, model profiles and intents in
in-memory maps, and a `MeshController` (`src/app/src/mesh-controller.ts`)
that derives program addresses, processes intents against an LLM provider
and executes permission-gated actions.

This file shallowly embeds the coordination-relevant functions:
  * SHA-256 (`crypto.createHash('sha256')`) over byte lists, executable;
  * JSON serialization as performed by `JSON.stringify` on the object
    representations the server builds (insertion-ordered key lists);
  * JavaScript truthiness for the `!x` / `x || d` idioms of the handlers;
  * the Express handlers for agent registration, model-profile update,
    intent creation and intent status update;
  * `MeshController.processIntent`, `MeshController.executeAction` and
    the nonce encoding of `MeshController.getIntentPDA`.
-/

namespace AgentMesh

/-! ## Bitwise arithmetic on 32-bit words, via plain Nat arithmetic -/

/-- Bitwise XOR of the low `k` bits of `a` and `b`. -/
def xorAux : Nat → Nat → Nat → Nat
  | 0, _, _ => 0
  | k + 1, a, b => (a + b) % 2 + 2 * xorAux k (a / 2) (b / 2)

/-- Bitwise AND of the low `k` bits of `a` and `b`. -/
def andAux : Nat → Nat → Nat → Nat
  | 0, _, _ => 0
  | k + 1, a, b => (a % 2) * (b % 2) + 2 * andAux k (a / 2) (b / 2)

/-- 32-bit XOR. -/
def xor32 (a b : Nat) : Nat := xorAux 32 a b

/-- 32-bit AND. -/
def and32 (a b : Nat) : Nat := andAux 32 a b

/-- 32-bit complement (arguments are kept below 2^32 throughout). -/
def not32 (a : Nat) : Nat := 4294967295 - a

/-- Right-rotation of a 32-bit word by `n` places. -/
def rotr32 (n a : Nat) : Nat := a / 2 ^ n + a % 2 ^ n * 2 ^ (32 - n)

/-- Logical right shift of a 32-bit word. -/
def shr32 (n a : Nat) : Nat := a / 2 ^ n

/-- Addition modulo 2^32. -/
def add32 (a b : Nat) : Nat := (a + b) % 4294967296

/-! ## SHA-256 (FIPS 180-4), over `List Nat` of bytes -/

/-- The 64 SHA-256 round constants (decimal). -/
def shaK : List Nat :=
  [1116352408, 1899447441, 3049323471, 3921009573, 961987163, 1508970993,
   2453635748, 2870763221, 3624381080, 310598401, 607225278, 1426881987,
   1925078388, 2162078206, 2614888103, 3248222580, 3835390401, 4022224774,
   264347078, 604807628, 770255983, 1249150122, 1555081692, 1996064986,
   2554220882, 2821834349, 2952996808, 3210313671, 3336571891, 3584528711,
   113926993, 338241895, 666307205, 773529912, 1294757372, 1396182291,
   1695183700, 1986661051, 2177026350, 2456956037, 2730485921, 2820302411,
   3259730800, 3345764771, 3516065817, 3600352804, 4094571909, 275423344,
   430227734, 506948616, 659060556, 883997877, 958139571, 1322822218,
   1537002063, 1747873779, 1955562222, 2024104815, 2227730452, 2361852424,
   2428436474, 2756734187, 3204031479, 3329325298]

/-- SHA-256 big sigma-0. -/
def bsig0 (a : Nat) : Nat := xor32 (xor32 (rotr32 2 a) (rotr32 13 a)) (rotr32 22 a)

/-- SHA-256 big sigma-1. -/
def bsig1 (a : Nat) : Nat := xor32 (xor32 (rotr32 6 a) (rotr32 11 a)) (rotr32 25 a)

/-- SHA-256 small sigma-0. -/
def ssig0 (a : Nat) : Nat := xor32 (xor32 (rotr32 7 a) (rotr32 18 a)) (shr32 3 a)

/-- SHA-256 small sigma-1. -/
def ssig1 (a : Nat) : Nat := xor32 (xor32 (rotr32 17 a) (rotr32 19 a)) (shr32 10 a)

/-- SHA-256 choice function. -/
def shaCh (e f g : Nat) : Nat := xor32 (and32 e f) (and32 (not32 e) g)

/-- SHA-256 majority function. -/
def shaMaj (a b c : Nat) : Nat := xor32 (xor32 (and32 a b) (and32 a c)) (and32 b c)

/-- The eight working variables of the compression function. -/
structure ShaState where
  a : Nat
  b : Nat
  c : Nat
  d : Nat
  e : Nat
  f : Nat
  g : Nat
  h : Nat
deriving Repr, DecidableEq

/-- Initial SHA-256 hash value (decimal). -/
def shaInit : ShaState :=
  ⟨1779033703, 3144134277, 1013904242, 2773480762,
   1359893119, 2600822924, 528734635, 1541459225⟩

/-- One round of the compression function with constant `k` and word `w`. -/
def shaRound (st : ShaState) (k w : Nat) : ShaState :=
  let t1 := (st.h + bsig1 st.e + shaCh st.e st.f st.g + k + w) % 4294967296
  let t2 := (bsig0 st.a + shaMaj st.a st.b st.c) % 4294967296
  ⟨add32 t1 t2, st.a, st.b, st.c, add32 st.d t1, st.e, st.f, st.g⟩

/-- Run the 64 rounds over paired constants and schedule words. -/
def shaRounds : List Nat → List Nat → ShaState → ShaState
  | k :: ks, w :: ws, st => shaRounds ks ws (shaRound st k w)
  | _, _, st => st

/-- Extend the (reversed) message schedule by `n` further words. -/
def scheduleAux : Nat → List Nat → List Nat
  | 0, acc => acc.reverse
  | n + 1, acc =>
    let w2 := acc.getD 1 0
    let w7 := acc.getD 6 0
    let w15 := acc.getD 14 0
    let w16 := acc.getD 15 0
    scheduleAux n ((ssig1 w2 + w7 + ssig0 w15 + w16) % 4294967296 :: acc)

/-- Expand 16 block words into the 64-word message schedule. -/
def schedule (ws : List Nat) : List Nat := scheduleAux 48 ws.reverse

/-- Pack bytes into big-endian 32-bit words, four at a time. -/
def bytesToWords : List Nat → List Nat
  | a :: b :: c :: d :: rest => (((a * 256 + b) * 256 + c) * 256 + d) :: bytesToWords rest
  | _ => []

/-- Compress a single 64-byte block into the running state. -/
def shaCompress (st : ShaState) (block : List Nat) : ShaState :=
  let w := schedule (bytesToWords block)
  let r := shaRounds shaK w st
  ⟨add32 st.a r.a, add32 st.b r.b, add32 st.c r.c, add32 st.d r.d,
   add32 st.e r.e, add32 st.f r.f, add32 st.g r.g, add32 st.h r.h⟩

/-- Split a byte list into 64-byte chunks (`n` is fuel, the list length). -/
def chunksAux : Nat → List Nat → List (List Nat)
  | 0, _ => []
  | _, [] => []
  | n + 1, l => l.take 64 :: chunksAux n (l.drop 64)

/-- Split a byte list into 64-byte chunks. -/
def chunks (l : List Nat) : List (List Nat) := chunksAux l.length l

/-- Big-endian 8-byte encoding of a natural number (used for the length field). -/
def be8 (n : Nat) : List Nat :=
  [n / 2 ^ 56 % 256, n / 2 ^ 48 % 256, n / 2 ^ 40 % 256, n / 2 ^ 32 % 256,
   n / 2 ^ 24 % 256, n / 2 ^ 16 % 256, n / 2 ^ 8 % 256, n % 256]

/-- SHA-256 padding: append 0x80, zeros to 56 mod 64, then the bit length. -/
def shaPad (msg : List Nat) : List Nat :=
  let zeros := (119 - msg.length % 64) % 64
  msg ++ 128 :: List.replicate zeros 0 ++ be8 (8 * msg.length)

/-- Serialize one 32-bit word to four big-endian bytes. -/
def wordToBytes (w : Nat) : List Nat := [w / 2 ^ 24 % 256, w / 2 ^ 16 % 256, w / 2 ^ 8 % 256, w % 256]

/-- SHA-256 digest of a byte list, as the 32-byte digest list.
Embeds `crypto.createHash('sha256').update(data).digest()`. -/
def sha256 (msg : List Nat) : List Nat :=
  let final := (chunks (shaPad msg)).foldl shaCompress shaInit
  wordToBytes final.a ++ wordToBytes final.b ++ wordToBytes final.c ++ wordToBytes final.d ++
    wordToBytes final.e ++ wordToBytes final.f ++ wordToBytes final.g ++ wordToBytes final.h

/-- UTF-8 encoding of one code point. -/
def utf8Char (c : Nat) : List Nat :=
  if c < 128 then [c]
  else if c < 2048 then [192 + c / 64, 128 + c % 64]
  else if c < 65536 then [224 + c / 4096, 128 + c / 64 % 64, 128 + c % 64]
  else [240 + c / 262144, 128 + c / 4096 % 64, 128 + c / 64 % 64, 128 + c % 64]

/-- UTF-8 byte encoding of a string, as `Buffer.from(s, 'utf8')`. -/
def utf8Bytes (s : String) : List Nat := s.data.flatMap (fun c => utf8Char c.toNat)

/-- Lowercase hex digit for a nibble. -/
def hexDigit (n : Nat) : Char :=
  if n < 10 then Char.ofNat (48 + n) else Char.ofNat (87 + n)

/-- Lowercase hex string of a byte list, as Node's `digest('hex')`. -/
def hexOfBytes (bs : List Nat) : String :=
  String.mk (bs.flatMap (fun b => [hexDigit (b / 16), hexDigit (b % 16)]))

/-! ## JSON values and `JSON.stringify`

JavaScript objects preserve (string-)key insertion order, and
`JSON.stringify` serializes fields in that order; we therefore model
objects as ordered association lists. -/

/-- A JSON value as handled by the server (numbers restricted to integers,
which covers every value the handlers construct). -/
inductive Json where
  | null : Json
  | bool (b : Bool) : Json
  | num (n : Int) : Json
  | str (s : String) : Json
  | arr (xs : List Json) : Json
  | obj (fields : List (String × Json)) : Json
deriving Repr

/-- JavaScript truthiness of a JSON value: `null`, `false`, `0` and the
empty string are falsy, everything else (including `[]` and the empty
object) is truthy. -/
def jsTruthy : Json → Bool
  | .null => false
  | .bool b => b
  | .num n => n != 0
  | .str s => s != ""
  | .arr _ => true
  | .obj _ => true

/-- Escape a character for a JSON string literal (the payloads at issue
use plain printable characters; quote and backslash are the escapes that
can arise from them). -/
def jsonEscape (c : Char) : List Char :=
  if c = '"' then ['\\', '"']
  else if c = '\\' then ['\\', '\\'] else [c]

/-- JSON string literal with quotes, as produced by `JSON.stringify`. -/
def jsonQuote (s : String) : String :=
  "\"" ++ String.mk (s.data.flatMap jsonEscape) ++ "\""

mutual

/-- Embedding of `JSON.stringify`, preserving object key insertion order. -/
def jsonStringify : Json → String
  | .null => "null"
  | .bool true => "true"
  | .bool false => "false"
  | .num n => toString n
  | .str s => jsonQuote s
  | .arr xs => "[" ++ stringifyElems xs ++ "]"
  | .obj fs => "\x7b" ++ stringifyFields fs ++ "\x7d"

/-- Comma-joined serialization of array elements. -/
def stringifyElems : List Json → String
  | [] => ""
  | [x] => jsonStringify x
  | x :: y :: rest => jsonStringify x ++ "," ++ stringifyElems (y :: rest)

/-- Comma-joined serialization of object fields, in stored order. -/
def stringifyFields : List (String × Json) → String
  | [] => ""
  | [(k, v)] => jsonQuote k ++ ":" ++ jsonStringify v
  | (k, v) :: f :: rest =>
    jsonQuote k ++ ":" ++ jsonStringify v ++ "," ++ stringifyFields (f :: rest)

end

/-- The SHA-256 digest of a JSON body as the server computes it:
`crypto.createHash('sha256').update(JSON.stringify(body)).digest()`. -/
def jsonDigest (body : Json) : List Nat := sha256 (utf8Bytes (jsonStringify body))

/-! ## JavaScript idioms of the Express handlers

Request-body fields are modeled as `Option` of the type each endpoint is
used with (`none` = the field is absent / `undefined`). On such values
the handlers' `!x` test and `x || d` default coincide with the
falsiness predicates and defaulting functions below. -/

/-- JavaScript `!x` for an optional string field: absent or empty is falsy. -/
def strFalsy (o : Option String) : Bool :=
  match o with
  | none => true
  | some s => s == ""

/-- JavaScript `x || d` for an optional string field. -/
def strOr (o : Option String) (d : String) : String :=
  match o with
  | none => d
  | some s => if s == "" then d else s

/-- JavaScript `x || null` for an optional string field. -/
def strOrNull (o : Option String) : Option String :=
  match o with
  | none => none
  | some s => if s == "" then none else some s

/-- JavaScript `x || d` for an optional integer field (`0` is falsy). -/
def intOr (o : Option Int) (d : Int) : Int :=
  match o with
  | none => d
  | some n => if n == 0 then d else n

/-- JavaScript `x || d` for an optional non-negative number field. -/
def natOr (o : Option Nat) (d : Nat) : Nat :=
  match o with
  | none => d
  | some n => if n == 0 then d else n

/-- JavaScript `!x` for an optional JSON-valued field. -/
def jsonFalsy (o : Option Json) : Bool :=
  match o with
  | none => true
  | some j => !jsTruthy j

/-! ## In-memory stores

The server keeps `agents`, `modelProfiles` and `intents` in JavaScript
`Map`s; we model a `Map` as an insertion-ordered association list. -/

/-- JavaScript `Map.get`: the value stored at a key, if any. -/
def mapGet {α : Type} (m : List (String × α)) (k : String) : Option α :=
  (m.find? (fun p => p.1 == k)).map Prod.snd

/-- JavaScript `Map.set`: replace in place if the key exists, else append. -/
def mapSet {α : Type} : List (String × α) → String → α → List (String × α)
  | [], k, v => [(k, v)]
  | (k1, v1) :: rest, k, v =>
    if k1 == k then (k, v) :: rest else (k1, v1) :: mapSet rest k v

/-- Result of an Express handler: an HTTP status code with either the
JSON-rendered record or an error message. -/
inductive HttpResp (α : Type) where
  | ok (code : Nat) (v : α)
  | err (code : Nat) (msg : String)
deriving Repr

/-! ## Records stored by the server

Wall-clock strings (`new Date().toISOString()`) are modeled by the
millisecond clock value `now` passed to each handler, which also models
`Date.now()`; `crypto.randomUUID()` is modeled by an explicit fresh-id
parameter. -/

/-- An agent registry record as built by `POST /api/agents`. -/
structure Agent where
  id : String
  ownerWallet : String
  agentWallet : String
  modelProfile : Option String
  metadataUri : String
  permissions : Nat
  createdAt : Nat
deriving Repr, DecidableEq

/-- Request body of `POST /api/agents`. -/
structure RegisterAgentReq where
  ownerWallet : Option String
  agentWallet : Option String
  modelProfile : Option String
  metadataUri : Option String
  permissions : Option Nat
deriving Repr

/-- Handler of `POST /api/agents`: register an agent. Fails 400 when `ownerWallet`
or `agentWallet` is falsy; otherwise stores a record with defaults
`modelProfile || null`, `metadataUri || ''`, `permissions || 0`. -/
def registerAgent (req : RegisterAgentReq) (agentId : String) (now : Nat)
    (st : List (String × Agent)) : HttpResp Agent × List (String × Agent) :=
  if strFalsy req.ownerWallet || strFalsy req.agentWallet then
    (.err 400 "ownerWallet and agentWallet required", st)
  else
    let agent : Agent :=
      { id := agentId
        ownerWallet := req.ownerWallet.getD ""
        agentWallet := req.agentWallet.getD ""
        modelProfile := strOrNull req.modelProfile
        metadataUri := strOr req.metadataUri ""
        permissions := natOr req.permissions 0
        createdAt := now }
    (.ok 201 agent, mapSet st agentId agent)

/-- A model-profile record as built by `POST /api/model-profiles`. -/
structure ModelProfile where
  id : String
  ownerWallet : String
  label : String
  providerUri : String
  pricing : Int
  billingWallet : String
  maxTokensPerDay : Nat
  maxRequestsPerMin : Nat
  createdAt : Nat
  updatedAt : Option Nat
deriving Repr, DecidableEq

/-- Request body of `PUT /api/model-profiles/:id`. -/
structure UpdateProfileReq where
  label : Option String
  providerUri : Option String
  pricing : Option Int
  billingWallet : Option String
  maxTokensPerDay : Option Nat
  maxRequestsPerMin : Option Nat
deriving Repr

/-- The field-update logic of `PUT /api/model-profiles/:id`: every field
is guarded by `if (field)` (truthiness) except `pricing`, which is
guarded by `pricing !== undefined`. -/
def applyProfileUpdate (req : UpdateProfileReq) (p : ModelProfile) : ModelProfile :=
  { p with
    label := if strFalsy req.label then p.label else req.label.getD ""
    providerUri := if strFalsy req.providerUri then p.providerUri else req.providerUri.getD ""
    pricing := match req.pricing with
      | some x => x
      | none => p.pricing
    billingWallet := if strFalsy req.billingWallet then p.billingWallet else req.billingWallet.getD ""
    maxTokensPerDay := match req.maxTokensPerDay with
      | some x => if x == 0 then p.maxTokensPerDay else x
      | none => p.maxTokensPerDay
    maxRequestsPerMin := match req.maxRequestsPerMin with
      | some x => if x == 0 then p.maxRequestsPerMin else x
      | none => p.maxRequestsPerMin }

/-- Handler of `PUT /api/model-profiles/:id`: 404 on a missing id, else apply the
guarded field updates, stamp `updatedAt`, and store the result. -/
def updateModelProfile (profileId : String) (req : UpdateProfileReq) (now : Nat)
    (st : List (String × ModelProfile)) : HttpResp ModelProfile × List (String × ModelProfile) :=
  match mapGet st profileId with
  | none => (.err 404 "Model profile not found", st)
  | some p =>
    let p2 := { applyProfileUpdate req p with updatedAt := some now }
    (.ok 200 p2, mapSet st profileId p2)

/-- An intent record as built by `POST /api/intents`. -/
structure Intent where
  id : String
  fromAgent : String
  toAgent : String
  nonce : Nat
  status : String
  payloadHash : String
  payloadUri : String
  payload : Json
  paymentAmount : Int
  paymentMint : String
  resultHash : Option String
  resultUri : Option String
  result : Option Json
  createdAt : Nat
  updatedAt : Option Nat
deriving Repr

/-- Request body of `POST /api/intents`. -/
structure CreateIntentReq where
  fromAgent : Option String
  toAgent : Option String
  payload : Option Json
  paymentAmount : Option Int
  paymentMint : Option String
deriving Repr

/-- Default `paymentMint` (USDC). -/
def usdcMint : String := "EPjFWdd5AufqSSqeM2qN1xzybapC8G4wEGGkZwyTDt1v"

/-- The intent object literal the create handler builds: nonce is
`Date.now()`, status `pending`, payload digest the SHA-256 hex of
`JSON.stringify(payload)`, result fields null. -/
def newIntentRecord (req : CreateIntentReq) (intentId : String) (now : Nat) : Intent :=
  let payload := req.payload.getD .null
  { id := intentId
    fromAgent := req.fromAgent.getD ""
    toAgent := req.toAgent.getD ""
    nonce := now
    status := "pending"
    payloadHash := hexOfBytes (jsonDigest payload)
    payloadUri := "https://mesh.example.com/payloads/" ++ intentId
    payload := payload
    paymentAmount := intOr req.paymentAmount 0
    paymentMint := strOr req.paymentMint usdcMint
    resultHash := none
    resultUri := none
    result := none
    createdAt := now
    updatedAt := none }

/-- Handler of `POST /api/intents`: fails 400 when `fromAgent`, `toAgent`
or `payload` is falsy; otherwise stores `newIntentRecord` under a fresh
random id. No other check is made: the agents registry, permissions,
`from == to` and the sign of `paymentAmount` are never consulted. -/
def createIntent (req : CreateIntentReq) (intentId : String) (now : Nat)
    (st : List (String × Intent)) : HttpResp Intent × List (String × Intent) :=
  if strFalsy req.fromAgent || strFalsy req.toAgent || jsonFalsy req.payload then
    (.err 400 "fromAgent, toAgent, and payload required", st)
  else
    let intent := newIntentRecord req intentId now
    (.ok 201 intent, mapSet st intentId intent)

/-- Request body of `PUT /api/intents/:id/status`. -/
structure UpdateStatusReq where
  status : Option String
  result : Option Json
deriving Repr

/-- Handler of `PUT /api/intents/:id/status`: 404 on a missing id, 400 on a falsy
`status`; otherwise assigns the supplied status unconditionally, and
when a truthy `result` is supplied also stores it with its SHA-256 hex
digest and a result locator. The current status is never inspected. -/
def updateIntentStatus (intentId : String) (req : UpdateStatusReq) (now : Nat)
    (st : List (String × Intent)) : HttpResp Intent × List (String × Intent) :=
  match mapGet st intentId with
  | none => (.err 404 "Intent not found", st)
  | some intent =>
    if strFalsy req.status then
      (.err 400 "status required", st)
    else
      let i1 := { intent with status := req.status.getD "" }
      let i2 :=
        if jsonFalsy req.result then i1
        else
          let r := req.result.getD .null
          { i1 with
            result := some r
            resultHash := some (hexOfBytes (jsonDigest r))
            resultUri := some ("https://mesh.example.com/results/" ++ intent.id) }
      let i3 := { i2 with updatedAt := some now }
      (.ok 200 i3, mapSet st intentId i3)

/-! ## MeshController (`src/app/src/mesh-controller.ts`)

Permission flags, the on-chain intent status enum, intent processing
against an LLM provider, permission-gated action execution, and the
nonce encoding used for intent address derivation. -/

/-- Flag `Permission.CAN_SWAP = 1 << 0`. -/
def CAN_SWAP : Nat := 1

/-- Flag `Permission.CAN_TRANSFER = 1 << 1`. -/
def CAN_TRANSFER : Nat := 2

/-- Flag `Permission.CAN_VOTE = 1 << 2`. -/
def CAN_VOTE : Nat := 4

/-- Flag `Permission.CAN_CREATE_INTENT = 1 << 3`. -/
def CAN_CREATE_INTENT : Nat := 8

/-- Flag `Permission.CAN_ACCEPT_INTENT = 1 << 4`. -/
def CAN_ACCEPT_INTENT : Nat := 16

/-- The on-chain intent status enum of the controller. -/
inductive IntentStatus where
  | Pending
  | Accepted
  | Completed
  | Failed
deriving Repr, DecidableEq

/-- Structure `AgentConfig` of the controller (public keys as their base58 text,
which is how the controller itself keys its provider map). -/
structure AgentConfig where
  ownerWallet : String
  agentWallet : String
  modelProfile : String
  metadataUri : String
  permissions : Nat
deriving Repr, DecidableEq

/-- Structure `IntentData` of the controller (`payloadHash`/`resultHash` are raw
32-byte values here, unlike the hex strings of the API server). -/
structure IntentData where
  fromAgent : String
  toAgent : String
  nonce : Nat
  status : IntentStatus
  payloadHash : List Nat
  payloadUri : String
  paymentAmount : Int
  paymentMint : String
  resultHash : List Nat
  resultUri : String
deriving Repr, DecidableEq

/-- The errors the controller throws, named by the spec taxonomy; each
constructor corresponds to one `throw new Error(...)` site:
`IntegrityViolation` = "Payload hash mismatch",
`NoProviderConfigured` = "No LLM provider configured for model profile",
`PermissionDenied msg` = "Agent does not have ... permission",
`UnsupportedAction a` = "Unknown action: ...". -/
inductive MeshError where
  | IntegrityViolation
  | NoProviderConfigured
  | PermissionDenied (msg : String)
  | UnsupportedAction (action : String)
deriving Repr, DecidableEq

/-- Externally observable side effects of a controller operation. The
demo controller can call the LLM backend; it never writes an intent's
status (no `setStatus` is ever emitted), which is recorded in the trace
type so that status preservation is statable. -/
inductive Effect where
  | backendCall (prompt : String)
  | setStatus (s : IntentStatus)
deriving Repr, DecidableEq

/-- The status an intent holds after a trace of effects is applied to an
initial status. -/
def statusAfter (effs : List Effect) (s : IntentStatus) : IntentStatus :=
  effs.foldl
    (fun cur e =>
      match e with
      | .setStatus s2 => s2
      | .backendCall _ => cur) s

/-- Field access `payload.prompt`: defined only on objects. -/
def jsonGet (j : Json) (k : String) : Option Json :=
  match j with
  | .obj fields => (fields.find? (fun p => p.1 == k)).map Prod.snd
  | _ => none

/-- Expression `payload.prompt || JSON.stringify(payload)`. A truthy non-string
prompt would be handed to the provider as a raw value; since the
provider model consumes strings it is represented by its serialization. -/
def promptOf (payload : Json) : String :=
  match jsonGet payload "prompt" with
  | some (.str s) => if s == "" then jsonStringify payload else s
  | some v => if jsTruthy v then jsonStringify v else jsonStringify payload
  | none => jsonStringify payload

/-- The result value returned by `processIntent`. -/
structure ProcessOutput where
  hash : List Nat
  uri : String
deriving Repr, DecidableEq

/-- Embedding of `MeshController.processIntent`. Arguments model its environment:
`fetchedPayload` is the body the `axios.get(intent.payloadUri)` fetch
returns (the stored payload body), `providers` is the controller's
`llmProviders` map with each provider's `call` as a function on the
prompt, and `now` is `Date.now()` at result construction.

Steps, in source order: recompute the SHA-256 digest of the fetched
body and fail with `IntegrityViolation` if it differs from
`intent.payloadHash`; resolve the provider for
`agentConfig.modelProfile` and fail with `NoProviderConfigured` on a
miss; call the provider (the one backend call in the trace); hash the
`{input, output, timestamp}` result object and return its digest and
locator. No branch writes the intent's status. -/
def processIntent (intent : IntentData) (agentConfig : AgentConfig)
    (fetchedPayload : Json) (providers : List (String × (String → String)))
    (now : Nat) : Except MeshError ProcessOutput × List Effect :=
  let computedHash := sha256 (utf8Bytes (jsonStringify fetchedPayload))
  if computedHash = intent.payloadHash then
    match mapGet providers agentConfig.modelProfile with
    | none => (.error .NoProviderConfigured, [])
    | some call =>
      let prompt := promptOf fetchedPayload
      let result := call prompt
      let resultData : Json :=
        .obj [("input", fetchedPayload), ("output", .str result), ("timestamp", .num now)]
      let resultHash := sha256 (utf8Bytes (jsonStringify resultData))
      (.ok ⟨resultHash, "https://mesh.example.com/results/" ++ hexOfBytes resultHash⟩,
        [.backendCall prompt])
  else
    (.error .IntegrityViolation, [])

/-- Embedding of `MeshController.executeAction`. The permission guards run first, in
source order, before the action dispatch; the demo dispatch returns
simulated transaction signatures and makes no external call, so the
effect trace is empty on every path. JavaScript `&` operates on 32-bit
values, embedded as `and32`. -/
def executeAction (agentConfig : AgentConfig) (action : String) :
    (Except MeshError String) × List Effect :=
  if action == "swap" && (and32 agentConfig.permissions CAN_SWAP == 0) then
    (.error (.PermissionDenied "Agent does not have CAN_SWAP permission"), [])
  else if action == "transfer" && (and32 agentConfig.permissions CAN_TRANSFER == 0) then
    (.error (.PermissionDenied "Agent does not have CAN_TRANSFER permission"), [])
  else if action == "swap" then
    (.ok "simulated-swap-tx-signature", [])
  else if action == "transfer" then
    (.ok "simulated-transfer-tx-signature", [])
  else
    (.error (.UnsupportedAction action), [])

/-- The 8-byte nonce seed built by `MeshController.getIntentPDA`:
`Buffer.alloc(8)` followed by `writeBigUInt64LE(BigInt(nonce))`, i.e.
little-endian byte order. (`writeBigUInt64LE` rejects values outside
`[0, 2^64)`; the reductions below are exact for in-range nonces.) -/
def nonceBuffer (nonce : Nat) : List Nat :=
  [nonce % 256, nonce / 2 ^ 8 % 256, nonce / 2 ^ 16 % 256, nonce / 2 ^ 24 % 256,
   nonce / 2 ^ 32 % 256, nonce / 2 ^ 40 % 256, nonce / 2 ^ 48 % 256, nonce / 2 ^ 56 % 256]

/-- The ordered seed list `getIntentPDA` passes to
`findProgramAddressSync` (agent keys as their 32 raw bytes). -/
def getIntentPDASeeds (fromAgent toAgent : List Nat) (nonce : Nat) : List (List Nat) :=
  [utf8Bytes "intent", fromAgent, toAgent, nonceBuffer nonce]

/-- Modelled from the spec: the spec's §4.1 requires the intent nonce
seed to be "always exactly 8 bytes, big-endian"; no big-endian encoder
exists in the source, so the spec's encoding is defined here for
comparison with the source's `nonceBuffer`. -/
def specNonceBigEndian (nonce : Nat) : List Nat := be8 nonce

/-- Value of a little-endian byte list (to state that the source
encoding is fixed-width and value-preserving). -/
def leValue : List Nat → Nat
  | [] => 0
  | b :: rest => b + 256 * leValue rest

/-- HTTP status code of a handler response. -/
def respCode {α : Type} : HttpResp α → Nat
  | .ok c _ => c
  | .err c _ => c

/-- Record carried by a successful handler response, if any. -/
def respVal {α : Type} : HttpResp α → Option α
  | .ok _ v => some v
  | .err _ _ => none

/-! ## Store lemmas -/

/-- Reading back the key just written into a map returns the written
value. -/
theorem mapGet_mapSet_self {α : Type} (m : List (String × α)) (k : String) (v : α) :
    mapGet (mapSet m k v) k = some v := by
  induction m with
  | nil => simp [mapGet, mapSet]
  | cons p rest ih =>
    by_cases h : p.1 = k
    · simp [mapGet, mapSet, h]
    · simpa [mapGet, mapSet, h] using ih

/-- Writing one key leaves every other key's stored value unchanged. -/
theorem mapGet_mapSet_ne {α : Type} (m : List (String × α)) (k k2 : String) (v : α)
    (h : k2 ≠ k) : mapGet (mapSet m k v) k2 = mapGet m k2 := by
  have h2 : k ≠ k2 := fun e => h e.symm
  induction m with
  | nil =>
    have hb : (k == k2) = false := by simp [h2]
    simp [mapGet, mapSet, List.find?, hb]
  | cons p rest ih =>
    obtain ⟨k1, v1⟩ := p
    by_cases hp : k1 = k
    · subst hp
      have hb : (k1 == k2) = false := by simp [h2]
      simp [mapGet, mapSet, List.find?, hb]
    · by_cases hq : k1 = k2
      · subst hq
        simp [mapGet, mapSet, List.find?, hp]
      · have hb : (k1 == k2) = false := by simp [hq]
        simpa [mapGet, mapSet, List.find?, hp, hb] using ih

/-! ## Claim C1 — integrity abort in `processIntent` -/

/-- C1: for every intent whose stored payload body no longer matches its
stored payload digest, `processIntent` recomputes the digest and fails
with `IntegrityViolation`; no LLM backend call is made, and the intent's
status is left unchanged (so an `Accepted` intent stays `Accepted`):
processing aborts and never continues silently. -/
theorem processIntent_integrity_abort (intent : IntentData) (cfg : AgentConfig)
    (body : Json) (providers : List (String × (String → String))) (now : Nat)
    (h : sha256 (utf8Bytes (jsonStringify body)) ≠ intent.payloadHash) :
    (processIntent intent cfg body providers now).1 = .error .IntegrityViolation ∧
    (∀ p, Effect.backendCall p ∉ (processIntent intent cfg body providers now).2) ∧
    statusAfter (processIntent intent cfg body providers now).2 intent.status = intent.status := by
  have hres : processIntent intent cfg body providers now = (.error .IntegrityViolation, []) := by
    simp only [processIntent]
    rw [if_neg h]
  rw [hres]
  exact ⟨rfl, by simp, rfl⟩

/-- Concrete intent for the C1 witness: its stored digest is the
all-zero word, which is not the digest of the body handed to it. -/
def intentC1 : IntentData :=
  ⟨"AgentA", "AgentB", 0, .Accepted, List.replicate 32 0,
   "https://mesh.example.com/payloads/i1", 0, usdcMint, [], ""⟩

/-- Concrete agent configuration for the C1 witness. -/
def cfgC1 : AgentConfig := ⟨"Owner", "Wallet", "Profile", "", 0⟩

/-- Witness for C1 at a concrete tampered intent. -/
theorem processIntent_integrity_abort_witness :
    sha256 (utf8Bytes (jsonStringify (Json.str "x"))) ≠ intentC1.payloadHash ∧
    (processIntent intentC1 cfgC1 (Json.str "x") [] 0).1 = .error .IntegrityViolation ∧
    statusAfter (processIntent intentC1 cfgC1 (Json.str "x") [] 0).2 IntentStatus.Accepted =
      IntentStatus.Accepted := by
  have hne : sha256 (utf8Bytes (jsonStringify (Json.str "x"))) ≠ intentC1.payloadHash := by
    decide
  have h := processIntent_integrity_abort intentC1 cfgC1 (Json.str "x") [] 0 hne
  exact ⟨hne, h.1, h.2.2⟩

/-! ## Claim C8 — permission gating in `executeAction` -/

/-- C8: `executeAction` checks the action-kind-specific permission flag
before anything else: a swap with `CAN_SWAP` absent from the mask and a
transfer with `CAN_TRANSFER` absent fail with `PermissionDenied`, with
an empty effect trace (no backend call is ever attempted); an unknown
action kind fails with `UnsupportedAction`. -/
theorem executeAction_permission_gate (cfg : AgentConfig) (action : String) :
    ((action = "swap" ∧ and32 cfg.permissions CAN_SWAP = 0) →
      executeAction cfg action =
        (.error (.PermissionDenied "Agent does not have CAN_SWAP permission"), [])) ∧
    ((action = "transfer" ∧ and32 cfg.permissions CAN_TRANSFER = 0) →
      executeAction cfg action =
        (.error (.PermissionDenied "Agent does not have CAN_TRANSFER permission"), [])) ∧
    (action ≠ "swap" → action ≠ "transfer" →
      executeAction cfg action = (.error (.UnsupportedAction action), [])) := by
  refine ⟨?_, ?_, ?_⟩
  · rintro ⟨rfl, hz⟩
    simp [executeAction, hz]
  · rintro ⟨rfl, hz⟩
    simp [executeAction, hz]
  · intro h1 h2
    simp [executeAction, h1, h2]

/-- Witness for C8: an agent with an empty permission mask is denied
swap and transfer, and a stake action is unsupported. -/
theorem executeAction_permission_gate_witness :
    executeAction ⟨"Own", "Wal", "Prof", "", 0⟩ "swap" =
      (.error (.PermissionDenied "Agent does not have CAN_SWAP permission"), []) ∧
    executeAction ⟨"Own", "Wal", "Prof", "", 0⟩ "transfer" =
      (.error (.PermissionDenied "Agent does not have CAN_TRANSFER permission"), []) ∧
    executeAction ⟨"Own", "Wal", "Prof", "", 0⟩ "stake" =
      (.error (.UnsupportedAction "stake"), []) := by
  refine ⟨(executeAction_permission_gate ⟨"Own", "Wal", "Prof", "", 0⟩ "swap").1 ⟨rfl, by decide⟩,
    (executeAction_permission_gate ⟨"Own", "Wal", "Prof", "", 0⟩ "transfer").2.1 ⟨rfl, by decide⟩,
    (executeAction_permission_gate ⟨"Own", "Wal", "Prof", "", 0⟩ "stake").2.2 (by decide) (by decide)⟩

/-! ## Claim C9 — falsy fields are ignored by the model-profile update -/

/-- C9: in a model-profile update, fields supplied with falsy values are
silently ignored rather than applied: `maxTokensPerDay = 0`,
`maxRequestsPerMin = 0`, `label = ""` and `providerUri = ""` leave the
stored values unchanged, while `pricing = 0` is applied (its guard is
`!== undefined` rather than truthiness); a caller therefore cannot zero
out a cap through this operation. -/
theorem updateModelProfile_falsy_ignored (pid : String) (p : ModelProfile)
    (req : UpdateProfileReq) (now : Nat) (st : List (String × ModelProfile))
    (hget : mapGet st pid = some p) :
    (req.maxTokensPerDay = some 0 →
      (mapGet (updateModelProfile pid req now st).2 pid).map ModelProfile.maxTokensPerDay =
        some p.maxTokensPerDay) ∧
    (req.maxRequestsPerMin = some 0 →
      (mapGet (updateModelProfile pid req now st).2 pid).map ModelProfile.maxRequestsPerMin =
        some p.maxRequestsPerMin) ∧
    (req.label = some "" →
      (mapGet (updateModelProfile pid req now st).2 pid).map ModelProfile.label = some p.label) ∧
    (req.providerUri = some "" →
      (mapGet (updateModelProfile pid req now st).2 pid).map ModelProfile.providerUri =
        some p.providerUri) ∧
    (req.pricing = some 0 →
      (mapGet (updateModelProfile pid req now st).2 pid).map ModelProfile.pricing = some 0) := by
  have hbase : mapGet (updateModelProfile pid req now st).2 pid =
      some { applyProfileUpdate req p with updatedAt := some now } := by
    simp [updateModelProfile, hget, mapGet_mapSet_self]
  refine ⟨?_, ?_, ?_, ?_, ?_⟩ <;> intro h <;>
    simp [hbase, applyProfileUpdate, h, strFalsy]

/-- Concrete stored profile for the C9 witness. -/
def profileC9 : ModelProfile :=
  ⟨"p1", "Own", "cheap-llm", "https://prov.example.com", 5, "bill", 100, 10, 0, none⟩

/-- Update request for the C9 witness: empty label and provider, zero
caps, zero pricing. -/
def reqC9 : UpdateProfileReq := ⟨some "", some "", some 0, none, some 0, some 0⟩

/-- Witness for C9: the zeroed caps and emptied label/provider of the
request are ignored, while the zero pricing is applied. -/
theorem updateModelProfile_falsy_ignored_witness :
    (mapGet (updateModelProfile "p1" reqC9 1 [("p1", profileC9)]).2 "p1").map
      ModelProfile.maxTokensPerDay = some 100 ∧
    (mapGet (updateModelProfile "p1" reqC9 1 [("p1", profileC9)]).2 "p1").map
      ModelProfile.maxRequestsPerMin = some 10 ∧
    (mapGet (updateModelProfile "p1" reqC9 1 [("p1", profileC9)]).2 "p1").map
      ModelProfile.label = some "cheap-llm" ∧
    (mapGet (updateModelProfile "p1" reqC9 1 [("p1", profileC9)]).2 "p1").map
      ModelProfile.providerUri = some "https://prov.example.com" ∧
    (mapGet (updateModelProfile "p1" reqC9 1 [("p1", profileC9)]).2 "p1").map
      ModelProfile.pricing = some 0 := by
  have h := updateModelProfile_falsy_ignored "p1" profileC9 reqC9 1 [("p1", profileC9)] (by decide)
  exact ⟨h.1 rfl, h.2.1 rfl, h.2.2.1 rfl, h.2.2.2.1 rfl, h.2.2.2.2 rfl⟩

/-! ## Claim C10 — agent-registration defaults -/

/-- C10: registering an agent with `ownerWallet` and `agentWallet` but
no further fields creates a record with permission mask `0`,
`modelProfile` null and `metadataUri` empty, stored under the fresh id;
a request missing `ownerWallet` or `agentWallet` fails with status 400
and leaves the store unchanged. -/
theorem registerAgent_defaults (ow aw id : String) (now : Nat) (st : List (String × Agent))
    (how : ow ≠ "") (haw : aw ≠ "") :
    (registerAgent ⟨some ow, some aw, none, none, none⟩ id now st).1 =
      .ok 201 ⟨id, ow, aw, none, "", 0, now⟩ ∧
    mapGet (registerAgent ⟨some ow, some aw, none, none, none⟩ id now st).2 id =
      some ⟨id, ow, aw, none, "", 0, now⟩ ∧
    (∀ req : RegisterAgentReq, req.ownerWallet = none ∨ req.agentWallet = none →
      registerAgent req id now st = (.err 400 "ownerWallet and agentWallet required", st)) := by
  have h1 : strFalsy (some ow) = false := by simp [strFalsy, how]
  have h2 : strFalsy (some aw) = false := by simp [strFalsy, haw]
  refine ⟨?_, ?_, ?_⟩
  · simp [registerAgent, h1, h2, strOrNull, strOr, natOr]
  · simp [registerAgent, h1, h2, strOrNull, strOr, natOr, mapGet_mapSet_self]
  · rintro req (h | h) <;> simp [registerAgent, h, strFalsy]

/-- Witness for C10 at a concrete minimal registration and a concrete
rejected registration. -/
theorem registerAgent_defaults_witness :
    (registerAgent ⟨some "Own", some "Wal", none, none, none⟩ "a1" 7 []).1 =
      .ok 201 ⟨"a1", "Own", "Wal", none, "", 0, 7⟩ ∧
    registerAgent ⟨none, some "Wal", none, none, none⟩ "a1" 7 [] =
      (.err 400 "ownerWallet and agentWallet required", []) := by
  have h := registerAgent_defaults "Own" "Wal" "a1" 7 [] (by decide) (by decide)
  exact ⟨h.1, h.2.2 ⟨none, some "Wal", none, none, none⟩ (Or.inl rfl)⟩

/-! ## Claim C2 — the status update validates no transition -/

/-- Store holding one intent that was created and then marked
`completed` through the endpoints themselves (so the counterexample
state is reachable). -/
def stCompletedC2 : List (String × Intent) :=
  (updateIntentStatus "i1" ⟨some "completed", none⟩ 6
    (createIntent ⟨some "A", some "B", some (.str "x"), none, none⟩ "i1" 5 []).2).2

/-- Counterexample to C2 as stated: a status update on an intent whose
status is the terminal `completed` succeeds with 200 and rewrites the
status back to `pending`; no `InvalidState` rejection exists anywhere in
the handler, so terminal intents are mutable. -/
theorem updateIntentStatus_terminal_mutable_cex :
    (mapGet stCompletedC2 "i1").map Intent.status = some "completed" ∧
    respCode (updateIntentStatus "i1" ⟨some "pending", none⟩ 7 stCompletedC2).1 = 200 ∧
    (mapGet (updateIntentStatus "i1" ⟨some "pending", none⟩ 7 stCompletedC2).2 "i1").map
      Intent.status = some "pending" := by
  decide

/-- C2 amended: the status-update operation validates nothing about the
transition: for every stored intent and every truthy requested status it
responds 200 and overwrites the intent's status with the requested
value, whatever the current status — including the terminal statuses
`completed` and `failed`, which therefore remain mutable; no
`InvalidState` error exists. -/
theorem updateIntentStatus_unconditional (intentId : String) (intent : Intent)
    (req : UpdateStatusReq) (now : Nat) (st : List (String × Intent))
    (hget : mapGet st intentId = some intent) (hstatus : strFalsy req.status = false) :
    respCode (updateIntentStatus intentId req now st).1 = 200 ∧
    (respVal (updateIntentStatus intentId req now st).1).map Intent.status =
      some (req.status.getD "") ∧
    (mapGet (updateIntentStatus intentId req now st).2 intentId).map Intent.status =
      some (req.status.getD "") := by
  cases hj : jsonFalsy req.result <;>
    simp [updateIntentStatus, hget, hstatus, hj, respCode, respVal, mapGet_mapSet_self]

/-- Concrete completed intent for the C2 witness. -/
def intentC2 : Intent :=
  ⟨"i1", "A", "B", 5, "completed", "", "", .null, 0, usdcMint, none, none, none, 5, none⟩

/-- Witness for the amended C2 at a concrete completed intent being
moved back to pending. -/
theorem updateIntentStatus_unconditional_witness :
    respCode (updateIntentStatus "i1" ⟨some "pending", none⟩ 7 [("i1", intentC2)]).1 = 200 ∧
    (mapGet (updateIntentStatus "i1" ⟨some "pending", none⟩ 7 [("i1", intentC2)]).2 "i1").map
      Intent.status = some "pending" := by
  have h := updateIntentStatus_unconditional "i1" intentC2 ⟨some "pending", none⟩ 7
    [("i1", intentC2)] rfl (by decide)
  exact ⟨h.1, h.2.2⟩

/-! ## Claim C3 — intent creation checks presence only -/

/-- Request for the C3 counterexample: source equals destination and the
payment amount is negative. -/
def reqC3 : CreateIntentReq := ⟨some "A", some "A", some (.str "x"), some (-1), none⟩

/-- Counterexample to C3 as stated: an intent with `from == to` and
`paymentAmount = -1`, created against an empty agents registry (no
identity holds any permission flag, and the handler consults no
permission data at all), is accepted with 201 and persisted. -/
theorem createIntent_no_checks_cex :
    respCode (createIntent reqC3 "i1" 5 []).1 = 201 ∧
    (mapGet (createIntent reqC3 "i1" 5 []).2 "i1").map Intent.fromAgent = some "A" ∧
    (mapGet (createIntent reqC3 "i1" 5 []).2 "i1").map Intent.toAgent = some "A" ∧
    (mapGet (createIntent reqC3 "i1" 5 []).2 "i1").map Intent.paymentAmount = some (-1) := by
  decide

/-- C3 amended: `createIntent` validates only presence: when
`fromAgent`, `toAgent` or `payload` is falsy it fails with 400 and
creates nothing; otherwise — with no permission lookup, and even when
`from == to` or `paymentAmount` is negative — it responds 201 and
persists the intent with the supplied fields (an absent `paymentAmount`
defaulting to 0). -/
theorem createIntent_presence_only (req : CreateIntentReq) (id : String) (now : Nat)
    (st : List (String × Intent)) :
    ((strFalsy req.fromAgent || strFalsy req.toAgent || jsonFalsy req.payload) = true →
      createIntent req id now st = (.err 400 "fromAgent, toAgent, and payload required", st)) ∧
    ((strFalsy req.fromAgent || strFalsy req.toAgent || jsonFalsy req.payload) = false →
      respCode (createIntent req id now st).1 = 201 ∧
      (mapGet (createIntent req id now st).2 id).map Intent.fromAgent =
        some (req.fromAgent.getD "") ∧
      (mapGet (createIntent req id now st).2 id).map Intent.toAgent =
        some (req.toAgent.getD "") ∧
      (mapGet (createIntent req id now st).2 id).map Intent.paymentAmount =
        some (intOr req.paymentAmount 0) ∧
      (mapGet (createIntent req id now st).2 id).map Intent.status = some "pending") := by
  constructor
  · intro h
    simp [createIntent, h]
  · intro h
    simp [createIntent, newIntentRecord, h, respCode, mapGet_mapSet_self]

/-- Witness for the amended C3: one rejected empty request, one accepted
self-directed negative-payment request. -/
theorem createIntent_presence_only_witness :
    createIntent ⟨none, none, none, none, none⟩ "i0" 5 [] =
      (.err 400 "fromAgent, toAgent, and payload required", []) ∧
    respCode (createIntent ⟨some "A", some "A", some (.str "x"), some (-1), none⟩ "i1" 5 []).1 =
      201 := by
  exact ⟨(createIntent_presence_only ⟨none, none, none, none, none⟩ "i0" 5 []).1 (by decide),
    ((createIntent_presence_only ⟨some "A", some "A", some (.str "x"), some (-1), none⟩
      "i1" 5 []).2 (by decide)).1⟩

/-! ## Claim C4 — result digest is not tied to completion -/

/-- Store holding one freshly created (pending) intent, built through
the endpoint. -/
def stPendingC4 : List (String × Intent) :=
  (createIntent ⟨some "A", some "B", some (.str "x"), none, none⟩ "i1" 5 []).2

/-- Counterexample to C4 as stated: through the endpoints one reaches an
intent with status `completed` and a null result digest (update with
status `completed` and no result), and an intent with a non-null result
digest whose status is not `completed` (update with status `accepted`
and a result). The if-and-only-if fails in both directions. -/
theorem resultDigest_iff_completed_cex :
    (mapGet (updateIntentStatus "i1" ⟨some "completed", none⟩ 6 stPendingC4).2 "i1").map
      Intent.status = some "completed" ∧
    (mapGet (updateIntentStatus "i1" ⟨some "completed", none⟩ 6 stPendingC4).2 "i1").map
      Intent.resultHash = some none ∧
    (mapGet (updateIntentStatus "i1" ⟨some "accepted", some (.str "r")⟩ 6 stPendingC4).2
      "i1").map Intent.status = some "accepted" ∧
    (mapGet (updateIntentStatus "i1" ⟨some "accepted", some (.str "r")⟩ 6 stPendingC4).2
      "i1").map (fun i => i.resultHash.isSome) = some true := by
  decide

/-- C4 amended: `resultHash` is independent of status: a status update
sets `resultHash` exactly when it supplies a truthy `result` (leaving
the previous value otherwise) and sets the status to the requested value
regardless, so a `completed` intent may carry a null result digest and a
non-`completed` intent a non-null one. -/
theorem resultHash_independent_of_status (intentId : String) (intent : Intent)
    (req : UpdateStatusReq) (now : Nat) (st : List (String × Intent))
    (hget : mapGet st intentId = some intent) (hstatus : strFalsy req.status = false) :
    (mapGet (updateIntentStatus intentId req now st).2 intentId).map Intent.resultHash =
      some (if jsonFalsy req.result then intent.resultHash
        else some (hexOfBytes (jsonDigest (req.result.getD .null)))) ∧
    (mapGet (updateIntentStatus intentId req now st).2 intentId).map Intent.status =
      some (req.status.getD "") := by
  cases hj : jsonFalsy req.result <;>
    simp [updateIntentStatus, hget, hstatus, hj, mapGet_mapSet_self]

/-- Concrete accepted intent with no result digest, for the C4 witness. -/
def intentC4 : Intent :=
  ⟨"i1", "A", "B", 5, "accepted", "", "", .null, 0, usdcMint, none, none, none, 5, none⟩

/-- Witness for the amended C4: completing without a result leaves the
result digest null. -/
theorem resultHash_independent_of_status_witness :
    (mapGet (updateIntentStatus "i1" ⟨some "completed", none⟩ 7 [("i1", intentC4)]).2 "i1").map
      Intent.resultHash = some none ∧
    (mapGet (updateIntentStatus "i1" ⟨some "completed", none⟩ 7 [("i1", intentC4)]).2 "i1").map
      Intent.status = some "completed" := by
  have h := resultHash_independent_of_status "i1" intentC4 ⟨some "completed", none⟩ 7
    [("i1", intentC4)] rfl (by decide)
  exact ⟨by simpa using h.1, by simpa using h.2⟩

/-! ## Claim C5 — the payload digest is key-order sensitive -/

/-- A two-field body in one key order. -/
def bodyAB : Json := .obj [("a", .num 1), ("b", .num 2)]

/-- The semantically equal body with the keys in the other order. -/
def bodyBA : Json := .obj [("b", .num 2), ("a", .num 1)]

/-- Counterexample to C5 as stated: two semantically equal bodies (the
same two key-value pairs, presented in the two orders) produce different
SHA-256 digests, because the body is serialized with `JSON.stringify`,
which preserves key insertion order and applies no canonicalization. -/
theorem jsonDigest_order_sensitive_cex :
    jsonGet bodyAB "a" = jsonGet bodyBA "a" ∧
    jsonGet bodyAB "b" = jsonGet bodyBA "b" ∧
    jsonDigest bodyAB ≠ jsonDigest bodyBA := by
  refine ⟨rfl, rfl, by decide⟩

/-- C5 amended: the digest is SHA-256 of `JSON.stringify` of the body;
it is deterministic in the serialized representation — bodies with equal
serializations always digest equally — but the serialization preserves
key insertion order and is not canonicalized, so semantically equal
bodies presented with different key order can digest differently. -/
theorem jsonDigest_serialization_determined :
    (∀ b1 b2 : Json, jsonStringify b1 = jsonStringify b2 → jsonDigest b1 = jsonDigest b2) ∧
    (∃ b1 b2 : Json, jsonGet b1 "a" = jsonGet b2 "a" ∧ jsonGet b1 "b" = jsonGet b2 "b" ∧
      jsonDigest b1 ≠ jsonDigest b2) := by
  constructor
  · intro b1 b2 h
    simp [jsonDigest, h]
  · exact ⟨bodyAB, bodyBA, rfl, rfl, by decide⟩

/-- Witness for the amended C5: the determinism direction applied at a
concrete body. -/
theorem jsonDigest_serialization_determined_witness :
    jsonDigest bodyAB = jsonDigest bodyAB :=
  jsonDigest_serialization_determined.1 bodyAB bodyAB rfl

/-! ## Claim C6 — the nonce seed is little-endian, not big-endian -/

/-- Counterexample to C6 as stated: `getIntentPDA` encodes the nonce
with `writeBigUInt64LE`, so the 8-byte seed is little-endian: at nonce 1
it is `[1,0,0,0,0,0,0,0]`, while the spec's big-endian encoding of 1 is
`[0,0,0,0,0,0,0,1]`, and that little-endian seed is what enters the
derivation input. -/
theorem nonce_encoding_not_bigendian_cex :
    nonceBuffer 1 = [1, 0, 0, 0, 0, 0, 0, 0] ∧
    specNonceBigEndian 1 = [0, 0, 0, 0, 0, 0, 0, 1] ∧
    nonceBuffer 1 ≠ specNonceBigEndian 1 ∧
    getIntentPDASeeds [] [] 1 = [utf8Bytes "intent", [], [], [1, 0, 0, 0, 0, 0, 0, 0]] := by
  decide

/-- C6 amended: the nonce is encoded as exactly 8 bytes in little-endian
byte order before being included in the derivation input — fixed-width
and value-preserving (hence injective) for every nonce below 2^64, but
not the big-endian, lexicographically order-preserving encoding the
claim states. -/
theorem nonceBuffer_le_fixed_width (n : Nat) (h : n < 2 ^ 64) :
    (nonceBuffer n).length = 8 ∧ leValue (nonceBuffer n) = n := by
  refine ⟨rfl, ?_⟩
  simp only [nonceBuffer, leValue]
  norm_num
  omega

/-- Witness for the amended C6 at nonce 1. -/
theorem nonceBuffer_le_fixed_width_witness :
    (1 : Nat) < 2 ^ 64 ∧ (nonceBuffer 1).length = 8 ∧ leValue (nonceBuffer 1) = 1 := by
  have h := nonceBuffer_le_fixed_width 1 (by norm_num)
  exact ⟨by norm_num, h.1, h.2⟩

/-! ## Claim C7 — the nonce is the clock and can repeat per pair -/

/-- First create request for the C7 counterexample. -/
def reqC7a : CreateIntentReq := ⟨some "A", some "B", some (.str "x"), none, none⟩

/-- Second create request for the same (source, destination) pair. -/
def reqC7b : CreateIntentReq := ⟨some "A", some "B", some (.str "y"), none, none⟩

/-- Counterexample to C7 as stated: two `createIntent` calls for the
same (source, destination) pair in the same millisecond choose the same
nonce (`Date.now()`), and no duplicate-address detection or retry
occurs: both intents are persisted, under their distinct random ids,
with identical nonces. -/
theorem createIntent_nonce_collision_cex :
    respCode (createIntent reqC7a "i1" 1000 []).1 = 201 ∧
    respCode (createIntent reqC7b "i2" 1000 (createIntent reqC7a "i1" 1000 []).2).1 = 201 ∧
    (mapGet (createIntent reqC7b "i2" 1000 (createIntent reqC7a "i1" 1000 []).2).2 "i1").map
      Intent.nonce = some 1000 ∧
    (mapGet (createIntent reqC7b "i2" 1000 (createIntent reqC7a "i1" 1000 []).2).2 "i2").map
      Intent.nonce = some 1000 ∧
    (mapGet (createIntent reqC7b "i2" 1000 (createIntent reqC7a "i1" 1000 []).2).2 "i1").map
      Intent.fromAgent =
      (mapGet (createIntent reqC7b "i2" 1000 (createIntent reqC7a "i1" 1000 []).2).2 "i2").map
        Intent.fromAgent ∧
    (mapGet (createIntent reqC7b "i2" 1000 (createIntent reqC7a "i1" 1000 []).2).2 "i1").map
      Intent.toAgent =
      (mapGet (createIntent reqC7b "i2" 1000 (createIntent reqC7a "i1" 1000 []).2).2 "i2").map
        Intent.toAgent := by
  decide

/-- C7 amended: the nonce is the `Date.now()` clock value at creation,
so two accepted creations in the same millisecond — for the same pair or
any pair — receive identical nonces; the handler performs no
duplicate-address detection or retry and stores both intents under their
distinct fresh ids. -/
theorem createIntent_nonce_is_clock (req1 req2 : CreateIntentReq) (id1 id2 : String)
    (now : Nat) (st : List (String × Intent))
    (h1 : (strFalsy req1.fromAgent || strFalsy req1.toAgent || jsonFalsy req1.payload) = false)
    (h2 : (strFalsy req2.fromAgent || strFalsy req2.toAgent || jsonFalsy req2.payload) = false)
    (hne : id1 ≠ id2) :
    (respVal (createIntent req1 id1 now st).1).map Intent.nonce = some now ∧
    (mapGet (createIntent req2 id2 now (createIntent req1 id1 now st).2).2 id2).map
      Intent.nonce = some now ∧
    (mapGet (createIntent req2 id2 now (createIntent req1 id1 now st).2).2 id1).map
      Intent.nonce = some now := by
  have e1 : createIntent req1 id1 now st =
      (.ok 201 (newIntentRecord req1 id1 now), mapSet st id1 (newIntentRecord req1 id1 now)) := by
    simp [createIntent, h1]
  have e2 : createIntent req2 id2 now (mapSet st id1 (newIntentRecord req1 id1 now)) =
      (.ok 201 (newIntentRecord req2 id2 now),
        mapSet (mapSet st id1 (newIntentRecord req1 id1 now)) id2
          (newIntentRecord req2 id2 now)) := by
    simp [createIntent, h2]
  refine ⟨?_, ?_, ?_⟩
  · rw [e1]
    simp [respVal, newIntentRecord]
  · rw [e1, e2]
    simp [mapGet_mapSet_self, newIntentRecord]
  · rw [e1, e2]
    rw [mapGet_mapSet_ne _ _ _ _ hne, mapGet_mapSet_self]
    simp [newIntentRecord]

/-- Witness for the amended C7: two concrete same-millisecond creations
for the pair (A, B). -/
theorem createIntent_nonce_is_clock_witness :
    (mapGet (createIntent ⟨some "A", some "B", some (.str "y"), none, none⟩ "i2" 1000
      (createIntent ⟨some "A", some "B", some (.str "x"), none, none⟩ "i1" 1000 []).2).2
      "i1").map Intent.nonce = some 1000 ∧
    (mapGet (createIntent ⟨some "A", some "B", some (.str "y"), none, none⟩ "i2" 1000
      (createIntent ⟨some "A", some "B", some (.str "x"), none, none⟩ "i1" 1000 []).2).2
      "i2").map Intent.nonce = some 1000 := by
  have h := createIntent_nonce_is_clock ⟨some "A", some "B", some (.str "x"), none, none⟩
    ⟨some "A", some "B", some (.str "y"), none, none⟩ "i1" "i2" 1000 []
    (by decide) (by decide) (by decide)
  exact ⟨h.2.2, h.2.1⟩

end AgentMesh

/-- Sanity check of the serializer against `JSON.stringify` output. -/
theorem AgentMesh.jsonStringify_check_ab :
    AgentMesh.jsonStringify (.obj [("a", .num 1), ("b", .num 2)]) = "\x7b\"a\":1,\"b\":2\x7d" := by
  decide

/-- Sanity check that the serializer follows key insertion order. -/
theorem AgentMesh.jsonStringify_check_ba :
    AgentMesh.jsonStringify (.obj [("b", .num 2), ("a", .num 1)]) = "\x7b\"b\":2,\"a\":1\x7d" := by
  decide

/-- Validation of the SHA-256 embedding on the FIPS 180-4 test vector. -/
theorem AgentMesh.sha256_check_abc : AgentMesh.sha256 (AgentMesh.utf8Bytes "abc") =
    [186, 120, 22, 191, 143, 1, 207, 234, 65, 65, 64, 222, 93, 174, 34, 35,
     176, 3, 97, 163, 150, 23, 122, 156, 180, 16, 255, 97, 242, 0, 21, 173] := by
  decide
